import Mathlib

/-!
Shallow embedding of the task-manager orchestration kernel
(`src/app/services/task_service.py` and `src/app/core/database_manager.py`).

Python dictionaries holding task records are modelled as association
structures; wall-clock timestamps are modelled by a logical clock `Nat`
that advances at each `datetime.now()` call; database tables are lists of
rows; the Celery broker is an external oracle passed in as a parameter
(dispatch outcome, worker roster, reported task state).
-/

namespace TaskManager

/-- Modelled from the spec: the kernel status enumeration
(`common.models.TaskStatus`) is not under `src/`; §4.4 of the spec fixes the
kernel's status vocabulary as pending/started/success/failure/retry/revoked. -/
def TaskStatus.PENDING : String := "pending"

/-- Modelled from the spec: kernel status value for STARTED. -/
def TaskStatus.STARTED : String := "started"

/-- Modelled from the spec: kernel status value for SUCCESS. -/
def TaskStatus.SUCCESS : String := "success"

/-- Modelled from the spec: kernel status value for FAILURE. -/
def TaskStatus.FAILURE : String := "failure"

/-- Modelled from the spec: kernel status value for RETRY. -/
def TaskStatus.RETRY : String := "retry"

/-- Modelled from the spec: kernel status value for REVOKED. -/
def TaskStatus.REVOKED : String := "revoked"

/-- Task types, from `common.models.TaskType` as used by
`task_service.py` (`TaskType.LLM`, `TaskType.STABLE_DIFFUSION`,
`TaskType.TTS`, `TaskType.IMAGE_TO_TEXT`). -/
inductive TaskType where
  | LLM
  | STABLE_DIFFUSION
  | TTS
  | IMAGE_TO_TEXT
deriving DecidableEq, BEq, Repr

/-- Modelled from the spec: string values of the task-type enumeration
(`common.models` is not under `src/`; "llm" appears as a valid value in
`task_service.py` line 314). -/
def TaskType.value : TaskType → String
  | .LLM => "llm"
  | .STABLE_DIFFUSION => "stable_diffusion"
  | .TTS => "tts"
  | .IMAGE_TO_TEXT => "image_to_text"

/-- The `task_type_mapping` table of `TaskService.__init__`
(task type to Celery task name). -/
def task_type_mapping : List (TaskType × String) :=
  [(.LLM, "app.tasks.run_llm_inference"),
   (.STABLE_DIFFUSION, "app.tasks.run_sd_inference"),
   (.TTS, "app.tasks.run_tts_inference"),
   (.IMAGE_TO_TEXT, "app.tasks.run_image_to_text_inference")]

/-- Incoming creation request (`common.models.TaskRequest` as consumed by
`task_service.py`: task_type, model_name, input_data, parameters, priority,
timeout; the last three optional). Payloads are opaque, modelled as strings. -/
structure TaskRequest where
  task_type : TaskType
  model_name : String
  input_data : String
  parameters : Option String := none
  priority : Option Int := none
  timeout : Option Int := none
deriving DecidableEq, Repr

/-- Python `x or d` on an optional integer: `None` and `0` are falsy. -/
def pyOrInt (x : Option Int) (d : Int) : Int :=
  match x with
  | none => d
  | some v => if v = 0 then d else v

/-- Python `x or d` on an optional natural (used for retry limits). -/
def pyOrNat (x : Option Nat) (d : Nat) : Nat :=
  match x with
  | none => d
  | some v => if v = 0 then d else v

/-- A task record: union of the fields of the in-memory `tasks_db` dict
entries and the `tasks` table rows. The in-memory path uses the keys
`result`/`error`, the database path `output_data`/`error_message`; both are
kept, mirroring the source's dual key usage. -/
structure TaskRecord where
  id : String
  type : String
  status : String
  priority : Int := 0
  model_id : String := ""
  worker_id : Option String := none
  input_data : String := ""
  parameters : String := ""
  output_data : Option String := none
  error_message : Option String := none
  result : Option String := none
  error : Option String := none
  created_at : Nat := 0
  started_at : Option Nat := none
  completed_at : Option Nat := none
  updated_at : Option Nat := none
  timeout_seconds : Int := 300
  retry_count : Nat := 0
  max_retries : Nat := 3
  celery_task_id : Option String := none
deriving DecidableEq, Repr

/-- The in-memory fallback store `TaskService.tasks_db`
(a Python dict keyed by task id). -/
def MemStore : Type := String → Option TaskRecord

/-- Dict insertion / overwrite `tasks_db[task_id] = task_data`. -/
def MemStore.set (store : MemStore) (task_id : String) (rec : TaskRecord) :
    MemStore :=
  fun k => if k = task_id then some rec else store k

/-- The empty `tasks_db`. -/
def MemStore.empty : MemStore := fun _ => none

/-- The `task_data` dict built by `TaskService.create_task` (lines 134-150):
status PENDING, `priority or 5`, `timeout or 300`, `max_retries` literal 3,
`created_at = now()`. The nested `input_data` dict stores the request's
payload and `parameters or {}` side by side. -/
def create_task_data (task_id : String) (req : TaskRequest) (t : Nat) :
    TaskRecord :=
  { id := task_id
    type := req.task_type.value
    status := TaskStatus.PENDING
    priority := pyOrInt req.priority 5
    model_id := req.model_name
    input_data := req.input_data
    parameters := req.parameters.getD ""
    created_at := t
    timeout_seconds := pyOrInt req.timeout 300
    max_retries := 3
    retry_count := 0 }

/-- Response record returned by `create_task` / `get_task`
(`common.models.TaskResponse`, fields as populated in `task_service.py`). -/
structure TaskResponse where
  task_id : String
  status : String
  task_type : TaskType
  model_name : String
  created_at : Nat
  started_at : Option Nat := none
  error : Option String := none
deriving DecidableEq, Repr

/-- `TaskService.create_task` on the in-memory path (`db_manager = None`).
The broker dispatch outcome is the oracle `dispatch`; `t` is the logical
clock at the `created_at` stamp, and the later `now()` on the success path
yields `t + 1`. Raises (`Except.error`) only for a task type missing from
`task_type_mapping`; a dispatch failure is caught and degraded to a
FAILURE-status record. -/
def create_task (task_id : String) (req : TaskRequest)
    (dispatch : Except String String) (t : Nat) (store : MemStore) :
    Except String (TaskResponse × MemStore) :=
  if (task_type_mapping.lookup req.task_type).isNone then
    .error ("Unsupported task type: " ++ req.task_type.value)
  else
    let task_data := create_task_data task_id req t
    let task_data :=
      match dispatch with
      | .ok _ =>
          { task_data with status := TaskStatus.STARTED,
                           started_at := some (t + 1) }
      | .error e =>
          { task_data with status := TaskStatus.FAILURE,
                           error_message := some e }
    .ok ({ task_id := task_id
           status := task_data.status
           task_type := req.task_type
           model_name := req.model_name
           created_at := task_data.created_at
           started_at := task_data.started_at
           error := task_data.error_message },
         store.set task_id task_data)

/-- Python truthiness of an optional string (`if worker_id:`):
`None` and the empty string are falsy. -/
def pyTruthyStr (x : Option String) : Bool :=
  match x with
  | none => false
  | some s => !(s = "")

/-- `TaskService.update_task_status` (task_service.py lines 331-369).
Operates on the in-memory `tasks_db` only. Returns `None` for an unknown
id; otherwise applies the given status unconditionally, stamps
`updated_at`, records `worker_id`/`result`/`error` when truthy, stamps
`started_at` on STARTED and `completed_at` on SUCCESS or FAILURE. -/
def update_task_status (store : MemStore) (task_id : String)
    (status : String) (worker_id : Option String) (result : Option String)
    (error : Option String) (t : Nat) : Option TaskRecord × MemStore :=
  match store task_id with
  | none => (none, store)
  | some task =>
      let task := { task with status := status, updated_at := some t }
      let task :=
        if pyTruthyStr worker_id then { task with worker_id := worker_id }
        else task
      let task :=
        if status = TaskStatus.STARTED then
          { task with started_at := some t }
        else task
      let task :=
        if pyTruthyStr result then { task with result := result } else task
      let task :=
        if pyTruthyStr error then { task with error := error } else task
      let task :=
        if status = TaskStatus.SUCCESS ∨ status = TaskStatus.FAILURE then
          { task with completed_at := some t }
        else task
      (some task, store.set task_id task)

/-- The `status_mapping` dict of `TaskService._update_task_status`
(Celery state names to kernel statuses). -/
def status_mapping : List (String × String) :=
  [("PENDING", TaskStatus.PENDING),
   ("STARTED", TaskStatus.STARTED),
   ("SUCCESS", TaskStatus.SUCCESS),
   ("FAILURE", TaskStatus.FAILURE),
   ("RETRY", TaskStatus.RETRY),
   ("REVOKED", TaskStatus.REVOKED)]

/-- `TaskService._update_task_status` (lines 244-281): reconcile the
in-memory record against the broker-reported state `celery_state`.
`status_mapping.get(celery_status, TaskStatus.PENDING)` maps any
unrecognized broker state to PENDING; the record is mutated only when the
mapped status differs from the stored one; on SUCCESS the broker result is
copied and on FAILURE the broker info is recorded as the error. -/
def update_task_status_from_celery (store : MemStore) (task_id : String)
    (celery_state : String) (celery_result : Option String)
    (celery_info : String) (t : Nat) : MemStore :=
  match store task_id with
  | none => store
  | some task =>
      if task.celery_task_id.isNone then store
      else
        let new_status := (status_mapping.lookup celery_state).getD
          TaskStatus.PENDING
        if task.status = new_status then store
        else
          let task := { task with status := new_status,
                                  updated_at := some t }
          let task :=
            if new_status = TaskStatus.SUCCESS then
              { task with completed_at := some t, result := celery_result }
            else if new_status = TaskStatus.FAILURE then
              { task with completed_at := some t,
                          error := some celery_info }
            else task
          store.set task_id task

/-- Per-worker entry of `TaskService.get_worker_stats` (lines 478-507).
The `status` field is the literal "online" for every worker present in the
broker's `stats()` roster. -/
structure WorkerInfo where
  status : String
  active_tasks : Nat
  scheduled_tasks : Nat
  reserved_tasks : Nat
  total_load : Nat
deriving DecidableEq, Repr

/-- Python truthiness of an optional dict (`if active else 0`):
`None` and the empty dict are falsy. Broker inspection dicts map a worker
name to a list of tasks; only the lengths matter, so a dict is modelled as
an association list of counts. -/
def pyTruthyDict (d : Option (List (String × Nat))) : Bool :=
  match d with
  | none => false
  | some l => !l.isEmpty

/-- `len(d.get(worker_name, []))` on a broker inspection dict. -/
def dictCount (d : Option (List (String × Nat))) (w : String) : Nat :=
  match d with
  | none => 0
  | some l => (l.lookup w).getD 0

/-- `len(active.get(worker_name, [])) if active else 0` of
`get_worker_stats`. -/
def countIfTruthy (d : Option (List (String × Nat))) (w : String) : Nat :=
  if pyTruthyDict d then dictCount d w else 0

/-- The `worker_info` dict built by `TaskService.get_worker_stats` from the
broker's `stats()` roster (enumeration order preserved) and the
`active`/`scheduled`/`reserved` inspection dicts: every roster worker gets
status "online", and `total_load` is the sum of the three counts guarded by
the conjunction of the three dicts' truthiness. -/
def get_worker_stats (stats : List String)
    (active scheduled reserved : Option (List (String × Nat))) :
    List (String × WorkerInfo) :=
  stats.map (fun w =>
    (w, { status := "online"
          active_tasks := countIfTruthy active w
          scheduled_tasks := countIfTruthy scheduled w
          reserved_tasks := countIfTruthy reserved w
          total_load :=
            if pyTruthyDict active ∧ pyTruthyDict scheduled ∧
               pyTruthyDict reserved then
              dictCount active w + dictCount scheduled w +
                dictCount reserved w
            else 0 }))

/-- Loop body of `TaskService.get_optimal_worker` (lines 541-572): keep the
current candidate unless this worker is online and has a strictly smaller
load than the minimum seen so far (`min_load` starts at infinity, modelled
as `none`). -/
def optimal_step (acc : Option String × Option Nat)
    (wi : String × WorkerInfo) : Option String × Option Nat :=
  if wi.2.status = "online" then
    match acc.2 with
    | none => (some wi.1, some wi.2.total_load)
    | some m =>
        if wi.2.total_load < m then (some wi.1, some wi.2.total_load)
        else acc
  else acc

/-- `TaskService.get_optimal_worker`: fold over the `worker_info` entries in
broker enumeration order; returns `None` when the roster is empty or no
worker is online. -/
def get_optimal_worker (workers : List (String × WorkerInfo)) :
    Option String :=
  (workers.foldl optimal_step (none, none)).1

/-- Routing options computed by `TaskService._dispatch_to_worker`
(lines 89-124). -/
structure RoutingOptions where
  priority : Int
  soft_time_limit : Int
  time_limit : Int
  queue : String
  routing_key : Option String
deriving DecidableEq, Repr

/-- The `routing_options` dict of `_dispatch_to_worker`:
`priority = 10 - (task_request.priority or 5)` (no clamping),
`soft_time_limit = (timeout or 300) - 30`, `time_limit = timeout or 300`,
queue fixed to "gpu_queue", and a routing key exactly when
`get_optimal_worker` returned a worker. -/
def routing_options (req : TaskRequest) (optimal_worker : Option String) :
    RoutingOptions :=
  { priority := 10 - pyOrInt req.priority 5
    soft_time_limit := pyOrInt req.timeout 300 - 30
    time_limit := pyOrInt req.timeout 300
    queue := "gpu_queue"
    routing_key := optimal_worker }

/-- Row of the `task_status_history` audit table
(database_manager.py, `update_task_with_status_history`). -/
structure HistoryEntry where
  task_id : String
  old_status : Option String
  new_status : String
  changed_by : String
  reason : Option String
deriving DecidableEq, Repr

/-- Row of the `task_dependencies` table: (task_id, dependency_task_id,
dependency_type). -/
structure DependencyEdge where
  task_id : String
  dependency_task_id : String
  dependency_type : String
deriving DecidableEq, Repr

/-- The durable store of `TaskDatabaseManager`: the `tasks`,
`task_dependencies` and `task_status_history` tables. -/
structure DbState where
  tasks : List TaskRecord
  task_dependencies : List DependencyEdge := []
  task_status_history : List HistoryEntry := []
deriving DecidableEq, Repr

/-- `TaskDatabaseManager.get_task`: `SELECT * FROM tasks WHERE id = $1`. -/
def db_get_task (db : DbState) (task_id : String) : Option TaskRecord :=
  db.tasks.find? (fun t => t.id = task_id)

/-- The keyword arguments `TaskDatabaseManager.update_task_status` may
receive. A field is `none` when the kwarg was not passed; `some v` when it
was passed with value `v` (itself optional: passing `None` clears the
column). `retry_count` is included because `retry_failed_task` passes it. -/
structure UpdateKwargs where
  started_at : Option (Option Nat) := none
  completed_at : Option (Option Nat) := none
  output_data : Option (Option String) := none
  error_message : Option (Option String) := none
  worker_id : Option (Option String) := none
  retry_count : Option Nat := none
deriving DecidableEq, Repr

/-- The field whitelist of `TaskDatabaseManager.update_task_status`
(line 202): only these kwargs become part of the UPDATE statement. -/
def update_field_whitelist : List String :=
  ["started_at", "completed_at", "output_data", "error_message",
   "worker_id"]

/-- Apply one keyword argument to a row, but only when its field name is on
the UPDATE whitelist — a kwarg outside the whitelist is silently dropped,
as in the source's `if field in [...]` filter. -/
def applyKw (field : String) (upd : TaskRecord → TaskRecord)
    (t : TaskRecord) : TaskRecord :=
  if field ∈ update_field_whitelist then upd t else t

/-- The row transformation performed by the dynamic UPDATE statement of
`TaskDatabaseManager.update_task_status`: set `status`, then each passed
kwarg that survives the whitelist filter. -/
def applyUpdate (status : String) (kw : UpdateKwargs) (t : TaskRecord) :
    TaskRecord :=
  let t := { t with status := status }
  let t := match kw.started_at with
    | none => t
    | some v => applyKw "started_at" (fun r => { r with started_at := v }) t
  let t := match kw.completed_at with
    | none => t
    | some v =>
        applyKw "completed_at" (fun r => { r with completed_at := v }) t
  let t := match kw.output_data with
    | none => t
    | some v =>
        applyKw "output_data" (fun r => { r with output_data := v }) t
  let t := match kw.error_message with
    | none => t
    | some v =>
        applyKw "error_message" (fun r => { r with error_message := v }) t
  let t := match kw.worker_id with
    | none => t
    | some v => applyKw "worker_id" (fun r => { r with worker_id := v }) t
  let t := match kw.retry_count with
    | none => t
    | some v =>
        applyKw "retry_count" (fun r => { r with retry_count := v }) t
  t

/-- `TaskDatabaseManager.update_task_status` (lines 195-209):
`UPDATE tasks SET status = $2, ... WHERE id = $1`; returns whether a row
was matched (`"UPDATE 1" in result`). -/
def db_update_task_status (db : DbState) (task_id : String)
    (status : String) (kw : UpdateKwargs) : Bool × DbState :=
  if db.tasks.any (fun t => t.id = task_id) then
    (true,
     { db with tasks := db.tasks.map (fun t =>
         if t.id = task_id then applyUpdate status kw t else t) })
  else (false, db)

/-- `TaskDatabaseManager.update_task_with_status_history` (lines 539-564):
read the current status, perform the update, and on success append a
`task_status_history` row (old status, new status, actor, reason). -/
def db_update_task_with_status_history (db : DbState) (task_id : String)
    (new_status : String) (changed_by : String) (reason : Option String)
    (kw : UpdateKwargs) : Bool × DbState :=
  match db_get_task db task_id with
  | none => (false, db)
  | some current_task =>
      let r := db_update_task_status db task_id new_status kw
      if r.1 then
        (true,
         { r.2 with task_status_history := r.2.task_status_history ++
             [{ task_id := task_id
                old_status := some current_task.status
                new_status := new_status
                changed_by := changed_by
                reason := reason }] })
      else r

/-- `TaskDatabaseManager.cancel_task` (lines 576-583): unconditionally
transitions any existing task to the literal status "cancelled" with
`completed_at = now`, through the audited update. No terminal-state guard
is performed on this path. -/
def db_cancel_task (db : DbState) (task_id : String) (reason : String)
    (cancelled_by : String) (now : Nat) : Bool × DbState :=
  db_update_task_with_status_history db task_id "cancelled" cancelled_by
    (some reason) { completed_at := some (some now) }

/-- `TaskDatabaseManager.retry_failed_task` (lines 585-608): reject when
the task is unknown or `retry_count >= max_retries` (with
`max_retries or current_task.get('max_retries', 3)` resolving the limit);
otherwise reset to "pending" via the audited update, passing
`retry_count = current + 1` and `None` for
started_at/completed_at/error_message. -/
def db_retry_failed_task (db : DbState) (task_id : String)
    (max_retries : Option Nat) : Bool × DbState :=
  match db_get_task db task_id with
  | none => (false, db)
  | some current_task =>
      let current_retries := current_task.retry_count
      let task_max_retries := pyOrNat max_retries current_task.max_retries
      if task_max_retries ≤ current_retries then (false, db)
      else
        db_update_task_with_status_history db task_id "pending"
          "retry_system"
          (some ("Retry attempt " ++ toString (current_retries + 1)))
          { retry_count := some (current_retries + 1)
            started_at := some none
            completed_at := some none
            error_message := some none }

/-- `TaskDatabaseManager.add_task_dependency` (lines 429-443):
`INSERT ... ON CONFLICT (task_id, dependency_task_id) DO NOTHING`.
Inserting an existing edge leaves the table unchanged; any insert returns
`True`. No cycle check is performed. -/
def db_add_task_dependency (db : DbState) (task_id : String)
    (dependency_task_id : String) (dependency_type : String) :
    Bool × DbState :=
  if db.task_dependencies.any (fun e =>
      e.task_id = task_id ∧ e.dependency_task_id = dependency_task_id) then
    (true, db)
  else
    (true,
     { db with task_dependencies := db.task_dependencies ++
         [{ task_id := task_id
            dependency_task_id := dependency_task_id
            dependency_type := dependency_type }] })

/-- Bounded reachability in the dependency edge list: is there a directed
path from `src` to `dst` of length at most `fuel`? -/
def reachable (edges : List DependencyEdge) :
    Nat → String → String → Bool
  | 0, _, _ => false
  | fuel + 1, src, dst =>
      edges.any (fun e =>
        e.task_id = src ∧
          (e.dependency_task_id = dst ∨
           reachable edges fuel e.dependency_task_id dst))

/-- The dependency graph contains a directed cycle: some edge closes a path
back to its own source (path length bounded by the number of edges). -/
def hasCycle (edges : List DependencyEdge) : Bool :=
  edges.any (fun e =>
    e.task_id = e.dependency_task_id ∨
      reachable edges edges.length e.dependency_task_id e.task_id)

/-- Dependency-satisfaction test of the `get_ready_tasks` SQL
(lines 457-471): the blocking EXISTS subquery finds a dependency edge of
`t` whose referenced task exists (JOIN) and whose status is
`NOT IN ('completed', 'skipped')`. -/
def dependency_unsatisfied (db : DbState) (e : DependencyEdge) : Bool :=
  match db_get_task db e.dependency_task_id with
  | some dep => ¬(dep.status = "completed" ∨ dep.status = "skipped")
  | none => false

/-- A task has a blocking dependency when some of its dependency edges
references an existing task whose status is outside
`('completed', 'skipped')`. -/
def blocking_dependency (db : DbState) (t : TaskRecord) : Bool :=
  db.task_dependencies.any (fun e =>
    e.task_id = t.id ∧ dependency_unsatisfied db e)

/-- Ordering key of `get_ready_tasks`:
`ORDER BY t.priority DESC, t.created_at ASC`. -/
def ready_order (a b : TaskRecord) : Bool :=
  b.priority < a.priority ∨
    (a.priority = b.priority ∧ a.created_at ≤ b.created_at)

/-- Insert a row into a list sorted by `ready_order`. -/
def insert_ready (t : TaskRecord) : List TaskRecord → List TaskRecord
  | [] => [t]
  | x :: xs =>
      if ready_order t x then t :: x :: xs else x :: insert_ready t xs

/-- Sort rows by `ready_order` (insertion sort). -/
def sort_ready : List TaskRecord → List TaskRecord
  | [] => []
  | x :: xs => insert_ready x (sort_ready xs)

/-- `TaskDatabaseManager.get_ready_tasks` (lines 457-471): tasks with
status 'pending' and no blocking dependency, ordered by priority
descending then creation time ascending, truncated to `limit`. -/
def db_get_ready_tasks (db : DbState) (limit : Nat) : List TaskRecord :=
  (sort_ready (db.tasks.filter (fun t =>
    t.status = "pending" ∧ ¬blocking_dependency db t))).take limit

/-- `TaskService.cancel_task` (task_service.py lines 371-426): with a
database manager, delegate to `db_cancel_task` (broker revocation is
best-effort and does not affect the result); on the in-memory fallback,
reject tasks already in SUCCESS or FAILURE, otherwise set REVOKED with
`completed_at`/`updated_at` stamps; unknown ids yield `False`. -/
def cancel_task (db : Option DbState) (store : MemStore) (task_id : String)
    (reason : String) (cancelled_by : String) (now : Nat) :
    Bool × Option DbState × MemStore :=
  match db with
  | some dbs =>
      let r := db_cancel_task dbs task_id reason cancelled_by now
      (r.1, some r.2, store)
  | none =>
      match store task_id with
      | some task =>
          if task.status = TaskStatus.SUCCESS ∨
             task.status = TaskStatus.FAILURE then
            (false, none, store)
          else
            (true, none,
             store.set task_id
               { task with status := TaskStatus.REVOKED,
                           completed_at := some now,
                           updated_at := some now })
      | none => (false, none, store)

/-- Specification-side characterization of the load-balancing choice: the
first online worker attaining the minimal online load, paired with that
load. Used to state the stable tie-break property of
`get_optimal_worker`. -/
def first_min_online : List (String × WorkerInfo) → Option (String × Nat)
  | [] => none
  | wi :: rest =>
      if wi.2.status = "online" then
        match first_min_online rest with
        | none => some (wi.1, wi.2.total_load)
        | some (w, m) =>
            if wi.2.total_load ≤ m then some (wi.1, wi.2.total_load)
            else some (w, m)
      else first_min_online rest

/-- Concrete store for the terminal-state experiments: one task `t1`
already in SUCCESS. -/
def memSuccess : MemStore :=
  MemStore.empty.set "t1"
    { id := "t1", type := "llm", status := TaskStatus.SUCCESS,
      created_at := 0, completed_at := some 2 }

/-- Concrete database state with a single SUCCESS task `t1`. -/
def dbSuccess : DbState :=
  { tasks := [{ id := "t1", type := "llm", status := TaskStatus.SUCCESS,
                created_at := 0, completed_at := some 2 }] }

/-- Concrete database state for the retry experiment: task `t1` in
FAILURE with `retry_count = 0` and `max_retries = 3` (the values
`create_task` produces), representing a permanently-failing task. -/
def dbFailed : DbState :=
  { tasks := [{ id := "t1", type := "llm", status := TaskStatus.FAILURE,
                created_at := 0, retry_count := 0, max_retries := 3,
                error_message := some "boom" }] }

/-- One retry attempt on `dbFailed`'s task, as issued by
`TaskService.retry_task` (no explicit max_retries override). -/
def retry_step (db : DbState) : Bool × DbState :=
  db_retry_failed_task db "t1" none

/-- Concrete database state for the readiness scenario after task A
succeeded: A is SUCCESS, B is PENDING and depends on A with type
"requires_completion". -/
def dbReadyScenario : DbState :=
  { tasks := [{ id := "A", type := "llm", status := TaskStatus.SUCCESS,
                priority := 5, created_at := 0, completed_at := some 3 },
              { id := "B", type := "llm", status := TaskStatus.PENDING,
                priority := 5, created_at := 1 }]
    task_dependencies := [{ task_id := "B", dependency_task_id := "A",
                            dependency_type := "requires_completion" }] }

/-- The same scenario before A completes: A and B both PENDING. -/
def dbReadyScenarioBefore : DbState :=
  { tasks := [{ id := "A", type := "llm", status := TaskStatus.PENDING,
                priority := 5, created_at := 0 },
              { id := "B", type := "llm", status := TaskStatus.PENDING,
                priority := 5, created_at := 1 }]
    task_dependencies := [{ task_id := "B", dependency_task_id := "A",
                            dependency_type := "requires_completion" }] }

/-- Concrete database state for the cycle experiment: tasks A and B with
an existing edge A depends on B. -/
def dbEdgeAB : DbState :=
  { tasks := [{ id := "A", type := "llm", status := TaskStatus.PENDING,
                created_at := 0 },
              { id := "B", type := "llm", status := TaskStatus.PENDING,
                created_at := 1 }]
    task_dependencies := [{ task_id := "A", dependency_task_id := "B",
                            dependency_type := "requires_completion" }] }

/-- Concrete creation request used by witnesses: the spec's scenario
task {type=LLM, model="m1", input="hi", priority=5}. -/
def reqLLM : TaskRequest :=
  { task_type := .LLM, model_name := "m1", input_data := "hi",
    priority := some 5 }

/-- Concrete creation request with priority and timeout omitted. -/
def reqDefaults : TaskRequest :=
  { task_type := .TTS, model_name := "m2", input_data := "x" }

/-- Concrete creation request with a priority above the broker's scale. -/
def reqPriority15 : TaskRequest :=
  { task_type := .LLM, model_name := "m1", input_data := "hi",
    priority := some 15 }

/-- Concrete store with a STARTED task carrying a broker handle, for the
reconciliation experiment. -/
def memStarted : MemStore :=
  MemStore.empty.set "t1"
    { id := "t1", type := "llm", status := TaskStatus.STARTED,
      created_at := 0, started_at := some 1,
      celery_task_id := some "c1" }

/-- Concrete store with a PENDING task, for the cancellation witness. -/
def memPending : MemStore :=
  MemStore.empty.set "t1"
    { id := "t1", type := "llm", status := TaskStatus.PENDING,
      created_at := 0 }

/-- Concrete broker roster for the balancing scenario of the spec: three
workers reporting loads 2, 0 and 1. -/
def rosterExample : List (String × WorkerInfo) :=
  [("w1", { status := "online", active_tasks := 2, scheduled_tasks := 0,
            reserved_tasks := 0, total_load := 2 }),
   ("w2", { status := "online", active_tasks := 0, scheduled_tasks := 0,
            reserved_tasks := 0, total_load := 0 }),
   ("w3", { status := "online", active_tasks := 1, scheduled_tasks := 0,
            reserved_tasks := 0, total_load := 1 })]

/-! Helper lemmas about the database update primitive. -/

theorem applyUpdate_id (s : String) (kw : UpdateKwargs) (t : TaskRecord) :
    (applyUpdate s kw t).id = t.id := by
  rcases kw with ⟨sa, ca, od, em, wid, rc⟩
  cases sa <;> cases ca <;> cases od <;> cases em <;> cases wid <;>
    cases rc <;> rfl

theorem applyUpdate_status (s : String) (kw : UpdateKwargs)
    (t : TaskRecord) : (applyUpdate s kw t).status = s := by
  rcases kw with ⟨sa, ca, od, em, wid, rc⟩
  cases sa <;> cases ca <;> cases od <;> cases em <;> cases wid <;>
    cases rc <;> rfl

theorem applyUpdate_retry_count (s : String) (kw : UpdateKwargs)
    (t : TaskRecord) : (applyUpdate s kw t).retry_count = t.retry_count := by
  rcases kw with ⟨sa, ca, od, em, wid, rc⟩
  cases sa <;> cases ca <;> cases od <;> cases em <;> cases wid <;>
    cases rc <;> rfl

theorem find?_map_update (l : List TaskRecord) (id : String)
    (f : TaskRecord → TaskRecord) (hf : ∀ t, (f t).id = t.id) :
    (l.map (fun t => if t.id = id then f t else t)).find?
      (fun t => t.id = id) =
    (l.find? (fun t => t.id = id)).map f := by
  induction l with
  | nil => rfl
  | cons x xs ih =>
      by_cases hx : x.id = id
      · simp [List.find?_cons, hx, hf]
      · simp [List.find?_cons, hx, ih]

theorem any_id_of_find? (l : List TaskRecord) (id : String)
    (cur : TaskRecord) (h : l.find? (fun t => t.id = id) = some cur) :
    l.any (fun t => t.id = id) = true := by
  induction l with
  | nil => simp [List.find?] at h
  | cons x xs ih =>
      rw [List.find?_cons] at h
      by_cases hx : x.id = id
      · simp [List.any_cons, hx]
      · simp only [hx, decide_False] at h
        simp [List.any_cons, ih h]

theorem db_get_task_after_update (db : DbState) (id status : String)
    (kw : UpdateKwargs) (cur : TaskRecord)
    (h : db_get_task db id = some cur) :
    (db_update_task_status db id status kw).1 = true ∧
    db_get_task (db_update_task_status db id status kw).2 id =
      some (applyUpdate status kw cur) := by
  unfold db_get_task at h
  have hany := any_id_of_find? db.tasks id cur h
  constructor
  · simp [db_update_task_status, hany]
  · simp only [db_update_task_status, hany, if_true, db_get_task]
    rw [find?_map_update _ _ _ (applyUpdate_id status kw), h]
    rfl

theorem db_update_history_unchanged (db : DbState) (id status : String)
    (kw : UpdateKwargs) :
    (db_update_task_status db id status kw).2.task_status_history =
      db.task_status_history := by
  unfold db_update_task_status
  split <;> rfl

theorem db_with_history_found (db : DbState)
    (id new_status changed_by : String) (reason : Option String)
    (kw : UpdateKwargs) (cur : TaskRecord)
    (h : db_get_task db id = some cur) :
    (db_update_task_with_status_history db id new_status changed_by reason
      kw).1 = true ∧
    db_get_task (db_update_task_with_status_history db id new_status
      changed_by reason kw).2 id = some (applyUpdate new_status kw cur) ∧
    (db_update_task_with_status_history db id new_status changed_by reason
      kw).2.task_status_history = db.task_status_history ++
        [{ task_id := id, old_status := some cur.status,
           new_status := new_status, changed_by := changed_by,
           reason := reason }] := by
  obtain ⟨h1, h2⟩ := db_get_task_after_update db id new_status kw cur h
  unfold db_update_task_with_status_history
  rw [h]
  simp only [h1, if_true]
  refine ⟨trivial, h2, ?_⟩
  show (db_update_task_status db id new_status kw).2.task_status_history ++
      _ = _
  rw [db_update_history_unchanged]

/-! Claim C1 — terminal-state protection of `update_task_status`. -/

/-- Claim C1, counterexample: `update_task_status` applied to a task
already in the terminal state SUCCESS and asked for PENDING moves the
stored status back to PENDING — it does not leave the status in the
terminal state, refuting the claim as stated. -/
theorem C1_counterexample :
    (((update_task_status memSuccess "t1" TaskStatus.PENDING none none
        none 5).2) "t1").map (fun x => x.status) = some TaskStatus.PENDING ∧
    TaskStatus.PENDING ≠ TaskStatus.SUCCESS := by
  constructor
  · rfl
  · decide

/-- Claim C1 (amended): `update_task_status` applies the requested status
unconditionally to any existing task — including tasks in SUCCESS,
FAILURE or REVOKED — so terminal states are not protected against it; only
an unknown id is a no-op. Both the returned record and the stored record
carry exactly the requested status. -/
theorem C1_update_applies_status_unconditionally (store : MemStore)
    (task_id status : String) (w r e : Option String) (t : Nat)
    (cur : TaskRecord) (h : store task_id = some cur) :
    ((update_task_status store task_id status w r e t).1).map
      (fun x => x.status) = some status ∧
    (((update_task_status store task_id status w r e t).2) task_id).map
      (fun x => x.status) = some status := by
  simp only [update_task_status, h, MemStore.set, if_pos rfl]
  constructor <;> (split_ifs <;> rfl)

/-- Claim C1, witness for the amended theorem at the SUCCESS store. -/
theorem C1_witness :
    (((update_task_status memSuccess "t1" TaskStatus.STARTED none none
        none 7).2) "t1").map (fun x => x.status) =
      some TaskStatus.STARTED :=
  (C1_update_applies_status_unconditionally memSuccess "t1"
    TaskStatus.STARTED none none none 7
    { id := "t1", type := "llm", status := TaskStatus.SUCCESS,
      created_at := 0, completed_at := some 2 } rfl).2

/-! Claim C2 — `create_task` always returns a definite record. -/

/-- Claim C2: for every creation request (every task type is supported by
`task_type_mapping`), `create_task` returns a definite record without
raising, even when dispatch fails. The returned status is STARTED with
`started_at` stamped when dispatch succeeds, FAILURE with the dispatch
error recorded when dispatch raises, never PENDING; and whenever
`started_at` is present, `created_at ≤ started_at`. -/
theorem C2_create_task_definite (task_id : String) (req : TaskRequest)
    (dispatch : Except String String) (t : Nat) (store : MemStore) :
    ∃ resp store',
      create_task task_id req dispatch t store = .ok (resp, store') ∧
      resp.status ≠ TaskStatus.PENDING ∧
      (∀ cid, dispatch = .ok cid → resp.status = TaskStatus.STARTED ∧
        resp.started_at = some (t + 1)) ∧
      (∀ e, dispatch = .error e → resp.status = TaskStatus.FAILURE ∧
        resp.error = some e) ∧
      (∀ s, resp.started_at = some s → resp.created_at ≤ s) := by
  rcases req with ⟨tt, mn, ind, pa, pr, ti⟩
  cases dispatch with
  | ok cid₀ =>
      cases tt <;>
        exact ⟨_, _, rfl,
          (by decide : ¬(TaskStatus.STARTED = TaskStatus.PENDING)),
          fun cid _ => ⟨rfl, rfl⟩,
          fun e he => Except.noConfusion he,
          fun s hs => by
            have hs' : some (t + 1) = some s := hs
            injection hs' with h
            exact h ▸ Nat.le_succ t⟩
  | error e₀ =>
      cases tt <;>
        exact ⟨_, _, rfl,
          (by decide : ¬(TaskStatus.FAILURE = TaskStatus.PENDING)),
          fun cid hc => Except.noConfusion hc,
          fun e he => by
            have he' : Except.error (α := String) e₀ = Except.error e := he
            injection he' with h
            exact ⟨rfl, congrArg some h⟩,
          fun s hs => Option.noConfusion hs⟩

/-- Claim C2, witness at the spec's scenario request with a successful
dispatch: the returned record is STARTED and `created_at ≤ started_at`. -/
theorem C2_witness :
    ∃ resp store',
      create_task "task-1" reqLLM (.ok "cid-1") 0 MemStore.empty =
        .ok (resp, store') ∧
      resp.status = TaskStatus.STARTED ∧ resp.status ≠ TaskStatus.PENDING ∧
      resp.started_at = some 1 := by
  obtain ⟨resp, store', h1, h2, h3, _, _⟩ :=
    C2_create_task_definite "task-1" reqLLM (.ok "cid-1") 0 MemStore.empty
  obtain ⟨hs, hst⟩ := h3 "cid-1" rfl
  exact ⟨resp, store', h1, hs, h2, hst⟩

/-! Claim C3 — cancellation guard and audit. -/

/-- Claim C3, counterexample: through the database path, `cancel_task` on
a task already in SUCCESS returns `true` and rewrites its status to the
literal "cancelled" (with a fresh `completed_at`) — it neither returns
false nor leaves the record unchanged, refuting the claim as stated. -/
theorem C3_counterexample :
    (cancel_task (some dbSuccess) MemStore.empty "t1" "User cancelled"
      "api" 9).1 = true ∧
    ((cancel_task (some dbSuccess) MemStore.empty "t1" "User cancelled"
      "api" 9).2.1.map (fun d => (db_get_task d "t1").map
        (fun x => x.status))) = some (some "cancelled") ∧
    ¬("cancelled" = TaskStatus.SUCCESS) := by
  refine ⟨rfl, rfl, by decide⟩

/-- Helper: the update kwargs passed by `db_cancel_task` set exactly the
`completed_at` column. -/
theorem applyUpdate_cancel_completed_at (s : String) (t0 : Nat)
    (task : TaskRecord) :
    (applyUpdate s { completed_at := some (some t0) } task).completed_at =
      some t0 := rfl

/-- Claim C3 (amended): on the in-memory fallback path, `cancel_task` on a
task already in SUCCESS or FAILURE returns false and leaves the store
unchanged, and on any other existing task sets REVOKED with
`completed_at = now` and returns true (no audit entry exists on this
path); on the database path, `cancel_task` succeeds for any existing task
regardless of its status — including SUCCESS and FAILURE — setting the
status literal "cancelled" (not REVOKED) with `completed_at = now` and
appending the audit entry. -/
theorem C3_cancel_paths (store : MemStore) (db : DbState)
    (task_id reason actor : String) (t : Nat) (taskM taskD : TaskRecord)
    (hm : store task_id = some taskM)
    (hd : db_get_task db task_id = some taskD) :
    ((taskM.status = TaskStatus.SUCCESS ∨
        taskM.status = TaskStatus.FAILURE) →
      cancel_task none store task_id reason actor t =
        (false, none, store)) ∧
    (¬(taskM.status = TaskStatus.SUCCESS ∨
        taskM.status = TaskStatus.FAILURE) →
      (cancel_task none store task_id reason actor t).1 = true ∧
      (((cancel_task none store task_id reason actor t).2.2) task_id).map
        (fun x => (x.status, x.completed_at)) =
          some (TaskStatus.REVOKED, some t)) ∧
    ((cancel_task (some db) store task_id reason actor t).1 = true ∧
      ((cancel_task (some db) store task_id reason actor t).2.1.map
        (fun d => (db_get_task d task_id).map
          (fun x => (x.status, x.completed_at)))) =
            some (some ("cancelled", some t)) ∧
      ((cancel_task (some db) store task_id reason actor t).2.1.map
        (fun d => d.task_status_history)) =
          some (db.task_status_history ++
            [{ task_id := task_id, old_status := some taskD.status,
               new_status := "cancelled", changed_by := actor,
               reason := some reason }])) := by
  obtain ⟨g1, g2, g3⟩ := db_with_history_found db task_id "cancelled"
    actor (some reason) { completed_at := some (some t) } taskD hd
  refine ⟨?_, ?_, ?_, ?_, ?_⟩
  · intro hterm
    simp [cancel_task, hm, hterm]
  · intro hterm
    simp only [cancel_task, hm, if_neg hterm]
    exact ⟨trivial, by simp [MemStore.set]⟩
  · exact g1
  · show some ((db_get_task (db_update_task_with_status_history db task_id
        "cancelled" actor (some reason)
        { completed_at := some (some t) }).2 task_id).map
          (fun x => (x.status, x.completed_at))) =
      some (some ("cancelled", some t))
    rw [g2]
    simp [applyUpdate_status, applyUpdate_cancel_completed_at]
  · show some ((db_update_task_with_status_history db task_id "cancelled"
        actor (some reason)
        { completed_at := some (some t) }).2.task_status_history) =
      some (db.task_status_history ++
        [{ task_id := task_id, old_status := some taskD.status,
           new_status := "cancelled", changed_by := actor,
           reason := some reason }])
    rw [g3]

/-- Claim C3, witness for the amended theorem: the guard holds on a
SUCCESS task in the memory path, a PENDING task is revoked in the memory
path, and the database path cancels even a SUCCESS task. -/
theorem C3_witness :
    cancel_task none memSuccess "t1" "r" "api" 9 =
      (false, none, memSuccess) ∧
    (cancel_task (some dbSuccess) memPending "t1" "r" "api" 9).1 = true ∧
    (cancel_task none memPending "t1" "r" "api" 9).1 = true := by
  have h1 := C3_cancel_paths memSuccess dbSuccess "t1" "r" "api" 9
    { id := "t1", type := "llm", status := TaskStatus.SUCCESS,
      created_at := 0, completed_at := some 2 }
    { id := "t1", type := "llm", status := TaskStatus.SUCCESS,
      created_at := 0, completed_at := some 2 } rfl rfl
  have h2 := C3_cancel_paths memPending dbSuccess "t1" "r" "api" 9
    { id := "t1", type := "llm", status := TaskStatus.PENDING,
      created_at := 0 }
    { id := "t1", type := "llm", status := TaskStatus.SUCCESS,
      created_at := 0, completed_at := some 2 } rfl rfl
  exact ⟨h1.1 (Or.inl rfl), h2.2.2.1, (h2.2.1 (by decide)).1⟩

/-! Claim C4 — retry budget. -/

/-- Claim C4, evaluation at the failing input: on a permanently-failing
task with `retry_count = 0` and `max_retries = 3`, four successive retry
calls all succeed (the fourth is not rejected) and the stored
`retry_count` is still 0 afterwards, not 3: the `retry_count` kwarg passed
by `retry_failed_task` is silently dropped by `update_task_status`'s field
whitelist, so the retry budget is never consumed. -/
theorem C4_retry_budget_never_consumed :
    (retry_step dbFailed).1 = true ∧
    (retry_step (retry_step dbFailed).2).1 = true ∧
    (retry_step (retry_step (retry_step dbFailed).2).2).1 = true ∧
    (retry_step (retry_step (retry_step (retry_step dbFailed).2).2).2).1 =
      true ∧
    ((db_get_task (retry_step (retry_step (retry_step
        (retry_step dbFailed).2).2).2).2 "t1").map
      (fun x => x.retry_count)) = some 0 := by
  refine ⟨rfl, rfl, rfl, rfl, rfl⟩

/-! Claim C5 — ready-task dependency resolution. -/

/-- Claim C5, evaluation at the failing input: with task A in SUCCESS and
task B PENDING depending only on A, `get_ready_tasks` does not return B
(it returns nothing), because the SQL treats only the literals
'completed' and 'skipped' as satisfied while the kernel SUCCESS status is
"success". Before A completes, A is correctly returned and B correctly
excluded. -/
theorem C5_ready_tasks_dependency_never_satisfied :
    ((db_get_ready_tasks dbReadyScenarioBefore 50).map (fun x => x.id)) =
      ["A"] ∧
    ((db_get_ready_tasks dbReadyScenario 50).map (fun x => x.id)) = [] ∧
    (db_get_task dbReadyScenario "A").map (fun x => x.status) =
      some TaskStatus.SUCCESS ∧
    (db_get_task dbReadyScenario "B").map (fun x => x.status) =
      some TaskStatus.PENDING := by
  refine ⟨rfl, rfl, rfl, rfl⟩

/-! Claim C6 — dependency-edge insertion. -/

/-- Claim C6, counterexample: starting from an acyclic graph with the
single edge A → B, inserting the cycle-closing edge B → A is not rejected:
the insert reports success and the stored graph now contains a cycle. -/
theorem C6_counterexample :
    hasCycle dbEdgeAB.task_dependencies = false ∧
    (db_add_task_dependency dbEdgeAB "B" "A" "requires_completion").1 =
      true ∧
    hasCycle (db_add_task_dependency dbEdgeAB "B" "A"
      "requires_completion").2.task_dependencies = true := by
  refine ⟨rfl, rfl, rfl⟩

/-- Claim C6 (amended): inserting a dependency edge that already exists is
an idempotent no-op (the insert succeeds and the stored table is
unchanged), and every insert — including one that closes a cycle — is
accepted: `add_task_dependency` performs no cycle check, so acyclicity is
not enforced. -/
theorem C6_add_dependency_idempotent_no_cycle_check (db : DbState)
    (a b ty : String) :
    (db_add_task_dependency db a b ty).1 = true ∧
    (db.task_dependencies.any (fun e =>
        e.task_id = a ∧ e.dependency_task_id = b) = true →
      (db_add_task_dependency db a b ty).2 = db) := by
  unfold db_add_task_dependency
  constructor
  · split <;> rfl
  · intro h
    rw [if_pos h]

/-- Claim C6, witness: re-inserting the existing edge A → B succeeds and
leaves the state unchanged. -/
theorem C6_witness :
    (db_add_task_dependency dbEdgeAB "A" "B" "requires_completion").1 =
      true ∧
    (db_add_task_dependency dbEdgeAB "A" "B" "requires_completion").2 =
      dbEdgeAB :=
  ⟨(C6_add_dependency_idempotent_no_cycle_check dbEdgeAB "A" "B"
      "requires_completion").1,
   (C6_add_dependency_idempotent_no_cycle_check dbEdgeAB "A" "B"
      "requires_completion").2 rfl⟩

/-! Claim C8 — dispatch routing policy. -/

/-- Claim C8, counterexample: for a requested priority of 15 the computed
broker priority is `10 - 15 = -5`, a negative value outside any valid
broker priority range — the computation performs no clamping, refuting
the claim as stated. -/
theorem C8_counterexample :
    (routing_options reqPriority15 none).priority = -5 ∧
    (routing_options reqPriority15 none).priority < 0 := by
  refine ⟨rfl, by decide⟩

/-- Claim C8 (amended): the routing policy is: broker priority equals
`10 - requested priority`, unclamped (an omitted or zero priority
defaults to 5); soft timeout equals the requested timeout minus the fixed
30-second margin; hard timeout equals the requested timeout (an omitted
or zero timeout defaults to 300); the target queue is the single shared
"gpu_queue"; and a routing key pinning the job to a worker is attached
exactly when the load balancer returned a concrete worker. -/
theorem C8_routing_policy (req : TaskRequest) (ow : Option String) :
    (∀ p, req.priority = some p → ¬(p = 0) →
      (routing_options req ow).priority = 10 - p) ∧
    (req.priority = none → (routing_options req ow).priority = 5) ∧
    (routing_options req ow).time_limit -
      (routing_options req ow).soft_time_limit = 30 ∧
    (∀ d, req.timeout = some d → ¬(d = 0) →
      (routing_options req ow).time_limit = d) ∧
    (req.timeout = none → (routing_options req ow).time_limit = 300) ∧
    (routing_options req ow).queue = "gpu_queue" ∧
    (routing_options req ow).routing_key = ow := by
  refine ⟨?_, ?_, ?_, ?_, ?_, rfl, rfl⟩
  · intro p hp hp0
    simp [routing_options, pyOrInt, hp, hp0]
  · intro hp
    simp [routing_options, pyOrInt, hp]
  · simp [routing_options]
  · intro d hd hd0
    simp [routing_options, pyOrInt, hd, hd0]
  · intro hd
    simp [routing_options, pyOrInt, hd]

/-- Claim C8, witness at the spec's scenario request (priority 5, timeout
omitted) with no worker selected. -/
theorem C8_witness :
    (routing_options reqLLM none).priority = 10 - 5 ∧
    (routing_options reqLLM none).time_limit = 300 ∧
    (routing_options reqLLM none).queue = "gpu_queue" ∧
    (routing_options reqLLM none).routing_key = none := by
  obtain ⟨h1, _, _, _, h5, h6, h7⟩ := C8_routing_policy reqLLM none
  exact ⟨h1 5 rfl (by decide), h5 rfl, h6, h7⟩

/-! Claim C7 — worker selection. Lemmas relating the source fold to the
first-minimum characterization. -/

theorem optimal_fold_some (ws : List (String × WorkerInfo)) :
    ∀ (w0 : String) (m0 : Nat),
    ws.foldl optimal_step (some w0, some m0) =
      (match first_min_online ws with
       | none => (some w0, some m0)
       | some (w, m) =>
           if m < m0 then (some w, some m) else (some w0, some m0)) := by
  induction ws with
  | nil => intro w0 m0; rfl
  | cons wi rest ih =>
      intro w0 m0
      by_cases hon : wi.2.status = "online"
      · by_cases hlt : wi.2.total_load < m0
        · rw [List.foldl_cons]
          have hstep : optimal_step (some w0, some m0) wi =
              (some wi.1, some wi.2.total_load) := by
            simp [optimal_step, hon, hlt]
          rw [hstep, ih]
          cases hf : first_min_online rest with
          | none => simp [first_min_online, hon, hf, hlt]
          | some p =>
              rcases p with ⟨w, m⟩
              by_cases hm : m < wi.2.total_load
              · have h1 : ¬(wi.2.total_load ≤ m) := by omega
                have h2 : m < m0 := by omega
                simp [first_min_online, hon, hf, hm, h1, h2]
              · have h1 : wi.2.total_load ≤ m := by omega
                simp [first_min_online, hon, hf, hm, h1, hlt]
        · rw [List.foldl_cons]
          have hstep : optimal_step (some w0, some m0) wi =
              (some w0, some m0) := by
            simp [optimal_step, hon, hlt]
          rw [hstep, ih]
          cases hf : first_min_online rest with
          | none => simp [first_min_online, hon, hf, hlt]
          | some p =>
              rcases p with ⟨w, m⟩
              by_cases hle : wi.2.total_load ≤ m
              · have h2 : ¬(m < m0) := by omega
                simp [first_min_online, hon, hf, hle, h2, hlt]
              · simp [first_min_online, hon, hf, hle]
      · rw [List.foldl_cons]
        have hstep : optimal_step (some w0, some m0) wi =
            (some w0, some m0) := by
          simp [optimal_step, hon]
        rw [hstep, ih]
        simp [first_min_online, hon]

theorem optimal_fold_none (ws : List (String × WorkerInfo)) :
    ws.foldl optimal_step (none, none) =
      (match first_min_online ws with
       | none => (none, none)
       | some (w, m) => (some w, some m)) := by
  induction ws with
  | nil => rfl
  | cons wi rest ih =>
      by_cases hon : wi.2.status = "online"
      · rw [List.foldl_cons]
        have hstep : optimal_step (none, none) wi =
            (some wi.1, some wi.2.total_load) := by
          simp [optimal_step, hon]
        rw [hstep, optimal_fold_some]
        cases hf : first_min_online rest with
        | none => simp [first_min_online, hon, hf]
        | some p =>
            rcases p with ⟨w, m⟩
            by_cases hm : m < wi.2.total_load
            · have h1 : ¬(wi.2.total_load ≤ m) := by omega
              simp [first_min_online, hon, hf, hm, h1]
            · have h1 : wi.2.total_load ≤ m := by omega
              simp [first_min_online, hon, hf, hm, h1]
      · rw [List.foldl_cons]
        have hstep : optimal_step (none, none) wi = (none, none) := by
          simp [optimal_step, hon]
        rw [hstep, ih]
        simp [first_min_online, hon]

theorem get_optimal_worker_eq (ws : List (String × WorkerInfo)) :
    get_optimal_worker ws = (first_min_online ws).map (fun p => p.1) := by
  unfold get_optimal_worker
  rw [optimal_fold_none]
  cases first_min_online ws with
  | none => rfl
  | some p => rcases p with ⟨w, m⟩; rfl

theorem first_min_online_no_online (ws : List (String × WorkerInfo))
    (h : ∀ wi ∈ ws, ¬(wi.2.status = "online")) :
    first_min_online ws = none := by
  induction ws with
  | nil => rfl
  | cons wi rest ih =>
      have hon := h wi (List.mem_cons_self wi rest)
      simp only [first_min_online, if_neg hon]
      exact ih (fun x hx => h x (List.mem_cons_of_mem _ hx))

theorem first_min_online_none_imp (ws : List (String × WorkerInfo))
    (h : first_min_online ws = none) :
    ∀ wi ∈ ws, ¬(wi.2.status = "online") := by
  induction ws with
  | nil => intro wi hwi; cases hwi
  | cons x rest ih =>
      intro wi hwi
      by_cases hon : x.2.status = "online"
      · exfalso
        simp only [first_min_online, if_pos hon] at h
        cases hf : first_min_online rest with
        | none => simp only [hf] at h; exact Option.noConfusion h
        | some p =>
            rcases p with ⟨w, m⟩
            simp only [hf] at h
            by_cases hle : x.2.total_load ≤ m <;> simp [hle] at h
      · rcases List.mem_cons.1 hwi with hwx | hwr
        · rw [hwx]; exact hon
        · simp only [first_min_online, if_neg hon] at h
          exact ih h wi hwr

theorem first_min_online_spec (ws : List (String × WorkerInfo)) :
    ∀ (w : String) (m : Nat), first_min_online ws = some (w, m) →
    ∃ info, (w, info) ∈ ws ∧ info.status = "online" ∧
      info.total_load = m ∧
      ∀ wi ∈ ws, wi.2.status = "online" → m ≤ wi.2.total_load := by
  induction ws with
  | nil => intro w m h; cases h
  | cons x rest ih =>
      intro w m h
      by_cases hon : x.2.status = "online"
      · simp only [first_min_online, if_pos hon] at h
        cases hf : first_min_online rest with
        | none =>
            simp only [hf] at h
            injection h with h'
            injection h' with hw hm
            have hno := first_min_online_none_imp rest hf
            refine ⟨x.2, ?_, hon, hm ▸ rfl, ?_⟩
            · rw [← hw]; exact List.mem_cons_self x rest
            · intro wi hwi honi
              rcases List.mem_cons.1 hwi with hwx | hwr
              · rw [hwx]; omega
              · exact absurd honi (hno wi hwr)
        | some p =>
            rcases p with ⟨w', m'⟩
            simp only [hf] at h
            obtain ⟨info', hmem', hon', hload', hmin'⟩ := ih w' m' hf
            by_cases hle : x.2.total_load ≤ m'
            · rw [if_pos hle] at h
              injection h with h'
              injection h' with hw hm
              refine ⟨x.2, ?_, hon, hm ▸ rfl, ?_⟩
              · rw [← hw]; exact List.mem_cons_self x rest
              · intro wi hwi honi
                rcases List.mem_cons.1 hwi with hwx | hwr
                · rw [hwx]; omega
                · have := hmin' wi hwr honi; omega
            · rw [if_neg hle] at h
              injection h with h'
              injection h' with hw hm
              refine ⟨info', List.mem_cons_of_mem _ (hw ▸ hmem'), hon',
                hm ▸ hload', ?_⟩
              intro wi hwi honi
              rcases List.mem_cons.1 hwi with hwx | hwr
              · rw [hwx]; omega
              · have := hmin' wi hwr honi; omega
      · simp only [first_min_online, if_neg hon] at h
        obtain ⟨info', hmem', hon', hload', hmin'⟩ := ih w m h
        refine ⟨info', List.mem_cons_of_mem _ hmem', hon', hload', ?_⟩
        intro wi hwi honi
        rcases List.mem_cons.1 hwi with hwx | hwr
        · exact absurd (hwx ▸ honi) hon
        · exact hmin' wi hwr honi

/-- Claim C7: `get_optimal_worker` equals the first worker attaining the
minimal load among online workers in the broker's enumeration order (the
stable tie-break characterization, so the result is deterministic given
identical broker input); it returns `none` when no worker is online; any
returned worker is online with a load minimal among online workers; and
`get_worker_stats` computes every roster worker's load as
active + scheduled + reserved (when all three inspection dicts are
truthy) with status "online". -/
theorem C7_select_worker (ws : List (String × WorkerInfo)) :
    get_optimal_worker ws = (first_min_online ws).map (fun p => p.1) ∧
    ((∀ wi ∈ ws, ¬(wi.2.status = "online")) →
      get_optimal_worker ws = none) ∧
    (∀ w, get_optimal_worker ws = some w →
      ∃ info, (w, info) ∈ ws ∧ info.status = "online" ∧
        ∀ wi ∈ ws, wi.2.status = "online" →
          info.total_load ≤ wi.2.total_load) ∧
    (∀ (stats : List String) (a s r : Option (List (String × Nat)))
       (x : String), x ∈ stats → pyTruthyDict a = true →
       pyTruthyDict s = true → pyTruthyDict r = true →
       ∃ info, (x, info) ∈ get_worker_stats stats a s r ∧
         info.status = "online" ∧
         info.total_load =
           dictCount a x + dictCount s x + dictCount r x) := by
  refine ⟨get_optimal_worker_eq ws, ?_, ?_, ?_⟩
  · intro h
    rw [get_optimal_worker_eq, first_min_online_no_online ws h]
    rfl
  · intro w hw
    rw [get_optimal_worker_eq] at hw
    cases hf : first_min_online ws with
    | none => rw [hf] at hw; cases hw
    | some p =>
        rcases p with ⟨w', m⟩
        rw [hf] at hw
        injection hw with hw'
        obtain ⟨info, hmem, hon, hload, hmin⟩ :=
          first_min_online_spec ws w' m hf
        exact ⟨info, hw' ▸ hmem, hon,
          fun wi hwi honi => hload ▸ hmin wi hwi honi⟩
  · intro stats a s r x hx ha hs hr
    refine ⟨_, List.mem_map.2 ⟨x, hx, rfl⟩, rfl, ?_⟩
    simp [ha, hs, hr]

/-- Claim C7, witness at the spec's three-worker scenario (loads 2, 0, 1):
the worker with load 0 is selected, is online, and its load is minimal. -/
theorem C7_witness :
    get_optimal_worker rosterExample = some "w2" ∧
    ∃ info, ("w2", info) ∈ rosterExample ∧ info.status = "online" ∧
      ∀ wi ∈ rosterExample, wi.2.status = "online" →
        info.total_load ≤ wi.2.total_load :=
  ⟨rfl, (C7_select_worker rosterExample).2.2.1 "w2" rfl⟩

/-! Claim C9 — broker-state reconciliation fallback. -/

/-- Claim C9: during reconciliation, a broker-reported state outside the
six recognized states maps to PENDING via the `status_mapping` default,
so a task stored as STARTED is moved back to PENDING when the broker
reports an unrecognized state. -/
theorem C9_unrecognized_state_resets_to_pending (store : MemStore)
    (task_id celery_state : String) (celery_result : Option String)
    (celery_info : String) (t : Nat) (task : TaskRecord)
    (h1 : store task_id = some task)
    (h2 : task.celery_task_id.isSome = true)
    (h3 : status_mapping.lookup celery_state = none)
    (h4 : task.status = TaskStatus.STARTED) :
    ((update_task_status_from_celery store task_id celery_state
        celery_result celery_info t) task_id).map (fun x => x.status) =
      some TaskStatus.PENDING := by
  have hnone : task.celery_task_id.isNone = false := by
    cases hcid : task.celery_task_id with
    | none => rw [hcid] at h2; cases h2
    | some c => rfl
  simp only [update_task_status_from_celery, h1, hnone, h3,
    Option.getD_none, h4]
  rw [if_neg (by simp)]
  rw [if_neg (by decide : ¬(TaskStatus.STARTED = TaskStatus.PENDING))]
  rw [if_neg (by decide : ¬(TaskStatus.PENDING = TaskStatus.SUCCESS))]
  rw [if_neg (by decide : ¬(TaskStatus.PENDING = TaskStatus.FAILURE))]
  simp [MemStore.set]

/-- Claim C9, witness: a STARTED task with a broker handle observed in the
unrecognized broker state "UNKNOWN_STATE" ends up stored as PENDING. -/
theorem C9_witness :
    ((update_task_status_from_celery memStarted "t1" "UNKNOWN_STATE" none
        "info" 4) "t1").map (fun x => x.status) =
      some TaskStatus.PENDING :=
  C9_unrecognized_state_resets_to_pending memStarted "t1" "UNKNOWN_STATE"
    none "info" 4
    { id := "t1", type := "llm", status := TaskStatus.STARTED,
      created_at := 0, started_at := some 1,
      celery_task_id := some "c1" } rfl rfl rfl rfl

/-! Claim C10 — creation defaults. -/

/-- Claim C10: every record built by `create_task` has `max_retries` fixed
at 3 independently of the request, and an omitted priority defaults to 5,
an omitted timeout to 300 seconds; the record stored by `create_task`
carries the same fixed `max_retries`. -/
theorem C10_creation_defaults (task_id : String) (req : TaskRequest)
    (t : Nat) (task_id' : String) (req' : TaskRequest) (t' : Nat)
    (dispatch : Except String String) (store : MemStore) :
    (create_task_data task_id req t).max_retries = 3 ∧
    (create_task_data task_id req t).max_retries =
      (create_task_data task_id' req' t').max_retries ∧
    (req.priority = none → (create_task_data task_id req t).priority = 5) ∧
    (req.timeout = none →
      (create_task_data task_id req t).timeout_seconds = 300) ∧
    (∀ resp store', create_task task_id req dispatch t store =
        .ok (resp, store') →
      (store' task_id).map (fun x => x.max_retries) = some 3) := by
  refine ⟨rfl, rfl, ?_, ?_, ?_⟩
  · intro h
    simp [create_task_data, pyOrInt, h]
  · intro h
    simp [create_task_data, pyOrInt, h]
  · intro resp store' h
    rcases req with ⟨tt, mn, ind, pa, pr, ti⟩
    cases tt <;> cases dispatch <;>
      (injection h with h'
       injection h' with hresp hstore
       rw [← hstore]
       simp [MemStore.set, create_task_data])

/-- Claim C10, witness at a request with priority and timeout omitted. -/
theorem C10_witness :
    (create_task_data "t1" reqDefaults 0).max_retries = 3 ∧
    (create_task_data "t1" reqDefaults 0).priority = 5 ∧
    (create_task_data "t1" reqDefaults 0).timeout_seconds = 300 := by
  obtain ⟨h1, _, h3, h4, _⟩ := C10_creation_defaults "t1" reqDefaults 0
    "t2" reqLLM 1 (.ok "cid") MemStore.empty
  exact ⟨h1, h3 rfl, h4 rfl⟩

end TaskManager
